import Mathlib

/-!
# Verification of `wptrunner/update.py`

A shallow embedding of the update orchestration module of the
web-platform-tests runner: the remote-repository mirror
(`WebPlatformTests`), the local-tree abstraction
(`NoVCSTree` / `HgTree` / `GitTree`), and the orchestration functions
(`sync_tests`, `update_metadata`, `run_update`, `main`).

External collaborators (the `git`/`hg` subprocess primitives, the
`metadata` module, the filesystem) are modelled as environment records
holding their observable results, exactly as the Python code consumes
them.  Python exceptions are modelled with `Except` over an explicit
exception type; Python `None` is modelled with `Option` (or with the
one-constructor `PyValue` where truthiness of a returned value matters).
-/

set_option autoImplicit false

namespace WptUpdate

/-- Python exception kinds that the module raises or catches:
`RepositoryError` (declared in `update.py`), `subprocess.CalledProcessError`
(caught in `HgTree.create_patch` and in `update_metadata`),
`AssertionError` (the `assert` in `GitTree.update_patch`),
`AttributeError` (access to a missing instance attribute), and a generic
catch-all for anything else. -/
inductive PyExn where
  | repositoryError (msg : String)
  | calledProcessError
  | assertionError
  | attributeError
  | other (msg : String)
deriving DecidableEq, Repr

/-- Equality of modelled call outcomes is decidable, so concrete runs can
be checked by evaluation. -/
instance {ε α : Type} [DecidableEq ε] [DecidableEq α] :
    DecidableEq (Except ε α) := fun x y =>
  match x, y with
  | Except.ok a, Except.ok b =>
      if h : a = b then isTrue (by rw [h]) else isFalse (by simp [h])
  | Except.error e, Except.error f =>
      if h : e = f then isTrue (by rw [h]) else isFalse (by simp [h])
  | Except.ok _, Except.error _ => isFalse (by simp)
  | Except.error _, Except.ok _ => isFalse (by simp)

/-! ## Remote repository mirror (`class WebPlatformTests`) -/

/-- Constructor state of `WebPlatformTests.__init__`: remote url, local
clone path, target revision (default `origin/master`) and the fresh
uuid-named isolation branch. -/
structure WebPlatformTests where
  remote_url : String
  repo_path : String
  target_rev : String
  local_branch : String

/-- Observable state of the on-disk clone at `repo_path`, as seen through
the git commands `update.py` issues.  `resolve` gives the commit hash a
ref name resolves to at call time (the upstream is fixed for the duration
of one call); `head` is the hash currently checked out;
`statusPorcelain` is the output of `git status --porcelain`;
`branches` are the local branches present on disk. -/
structure GitWorld where
  pathExists : Bool
  isGitRoot : Bool
  statusPorcelain : String
  resolve : String → String
  head : String
  branches : List String
  submodulesUpdated : Bool

/-- `WebPlatformTests.update` (update.py lines 41-59).  Creates the clone
directory if missing; if the path is not a git root, clones and checks out
a new isolation branch at `target_rev`; otherwise requires a clean status
(raising `RepositoryError` when `git status --porcelain` output is
non-empty, i.e. truthy), then fetches `target_rev` into the isolation
branch and checks it out.  Both successful paths then run
`git submodule init` and `git submodule update --init --recursive`. -/
def WebPlatformTests.update (m : WebPlatformTests) (w : GitWorld) :
    Except PyExn GitWorld :=
  let w := { w with pathExists := true }
  if w.isGitRoot = false then
    -- git clone remote_url . ; git checkout -b local_branch target_rev
    Except.ok { w with
      isGitRoot := true
      statusPorcelain := ""
      head := w.resolve m.target_rev
      branches := m.local_branch :: w.branches
      submodulesUpdated := true }
  else if w.statusPorcelain ≠ "" then
    Except.error (PyExn.repositoryError
      ("Repository in " ++ m.repo_path ++ " not clean"))
  else
    -- git fetch remote_url target_rev:local_branch ; git checkout local_branch
    Except.ok { w with
      head := w.resolve m.target_rev
      branches := m.local_branch :: w.branches
      submodulesUpdated := true }

/-- `WebPlatformTests.rev` (update.py lines 61-66): the stripped output of
`git rev-parse HEAD` when the clone path is a git root, `None` otherwise. -/
def WebPlatformTests.rev (w : GitWorld) : Option String :=
  if w.isGitRoot then some w.head else none

/-! ## Work-tree copying (`_tree_paths` / `copy_work_tree`) -/

/-- The tracked-tree listing side of the mirror, as consumed by
`copy_work_tree`: `treePaths` is the output of `_tree_paths()` (every
path listed by `git ls-tree -r --name-only HEAD` in the main repository
and in each submodule, submodule files prefixed by the submodule path),
and `sourceIsDir p` is `os.path.isdir` of the corresponding source path
inside the clone (true exactly for submodule gitlink entries, whose
checkout is a directory). -/
structure MirrorTree where
  treePaths : List String
  sourceIsDir : String → Bool

/-- The two fixed overlay files placed by `copy_work_tree`
(update.py lines 117-121): `testharness_runner.html` at the tree root and
`testharnessreport.js` under `resources/`. -/
def overlayFiles : List String :=
  ["testharness_runner.html", "resources/testharnessreport.js"]

/-- The wipe phase of `copy_work_tree` (update.py lines 100-105): every
entry of the pre-existing destination directory is removed, directories
recursively and files individually, leaving the directory empty. -/
def wipeDest (destBefore : List String) : List String :=
  destBefore.filter (fun _ => false)

/-- `WebPlatformTests.copy_work_tree` (update.py lines 96-121), expressed
on the set of files under `dest`: first every existing entry is removed,
then each path from `_tree_paths()` whose source is not a directory is
copied (the `if not os.path.isdir(source_path)` guard skips submodule
gitlink entries), then the two overlay files are copied to their fixed
relative destinations. -/
def copy_work_tree (t : MirrorTree) (destBefore : List String) :
    List String :=
  wipeDest destBefore
    ++ t.treePaths.filter (fun p => t.sourceIsDir p = false)
    ++ overlayFiles

/-! ## Local tree abstraction (`NoVCSTree` / `HgTree` / `GitTree`) -/

/-- The three local-tree variants probed by `run_update`
(update.py line 370: `[HgTree, GitTree, NoVCSTree]`). -/
inductive TreeKind where
  | hg
  | git
  | novcs
deriving DecidableEq, Repr

/-- Observable VCS invocations issued by the local-tree patch operations:
`git checkout -b name` / `git commit -m msg args`, `hg qnew name -m msg` /
`hg qrefresh args`, and the `add` calls.  The `NoVCSTree` variant issues
none of these (all its mutating methods are `pass`). -/
inductive VcsAction where
  | gitCheckoutBranch (name : String)
  | gitCommit (msg : String) (args : List String)
  | gitAdd (args : List String)
  | hgQnew (name : String) (msg : String)
  | hgQrefresh (args : List String)
  | hgAdd (args : List String)
deriving DecidableEq, Repr

/-! ### `GitTree` patch-message state (C5) -/

/-- The state of a `GitTree` instance that its patch methods consult:
the pending commit message (`self.message`, set to `None` by `__init__`
at update.py line 210). -/
structure GitTreeState where
  message : Option String
deriving DecidableEq, Repr

/-- `GitTree.__init__` (update.py lines 205-210): the pending commit
message starts out as `None`. -/
def gitTreeInit : GitTreeState := { message := none }

/-- `GitTree.create_patch` (update.py lines 230-233): remembers the
message and runs `git checkout -b patch_name`. -/
def GitTree.create_patch (s : GitTreeState) (patch_name message : String) :
    GitTreeState × VcsAction :=
  ({ s with message := some message }, VcsAction.gitCheckoutBranch patch_name)

/-- `GitTree.update_patch` (update.py lines 235-243): asserts that a
message has been remembered (raising `AssertionError` when
`self.message is None`), then runs `git commit -m message` followed by
the explicitly listed paths when `includePaths` is given. -/
def GitTree.update_patch (s : GitTreeState)
    (includePaths : Option (List String)) : Except PyExn VcsAction :=
  match s.message with
  | none => Except.error PyExn.assertionError
  | some msg => Except.ok (VcsAction.gitCommit msg (includePaths.getD []))

/-- The `GitTree` methods other than `update_patch` as state
transformers, used to quantify over every instance history.  Only
`create_patch` assigns `self.message`; `is_clean`, `add_new` and
`commit_patch` (a `pass`) leave the instance state unchanged. -/
inductive GitTreeOp where
  | isClean
  | addNew (pre : Option String)
  | createPatch (patch_name : String) (message : String)
  | commitPatch
deriving DecidableEq, Repr

/-- Effect of one `GitTree` method call on the instance state. -/
def GitTree.applyOp (s : GitTreeState) : GitTreeOp → GitTreeState
  | GitTreeOp.isClean => s
  | GitTreeOp.addNew _ => s
  | GitTreeOp.createPatch n m => (GitTree.create_patch s n m).1
  | GitTreeOp.commitPatch => s

/-- Effect of a sequence of `GitTree` method calls. -/
def GitTree.applyOps (s : GitTreeState) : List GitTreeOp → GitTreeState
  | [] => s
  | op :: ops => GitTree.applyOps (GitTree.applyOp s op) ops

/-- Whether a call history contains a `create_patch` call. -/
def hasCreatePatch : List GitTreeOp → Bool
  | [] => false
  | GitTreeOp.createPatch _ _ :: _ => true
  | _ :: ops => hasCreatePatch ops

/-! ### `HgTree` attribute state (C6) -/

/-- The instance attributes a constructed `HgTree` has:
`HgTree.__init__` (update.py lines 155-159) assigns exactly `self.root`
and `self.hg` (the repo-bound command runner). -/
inductive HgTreeAttr where
  | root
  | hg
deriving DecidableEq, Repr

/-- An `HgTree` instance: its root path, exposed through its attribute
set. -/
structure HgTree where
  root : String
deriving DecidableEq, Repr

/-- Python attribute lookup on an `HgTree` instance: `self.root` and
`self.hg` exist, any other attribute name raises `AttributeError`.
The lookup is by attribute name string, as in Python. -/
def HgTree.getattr (t : HgTree) (attrName : String) : Except PyExn String :=
  if attrName = "root" then Except.ok t.root
  else if attrName = "hg" then Except.ok t.root
  else Except.error PyExn.attributeError

/-- `HgTree.commit_patch` (update.py lines 198-199):
`self.hg("qfinish", repo=self.repo_root)`.  Evaluating the arguments
requires reading the attribute `repo_root`, which `__init__` never
assigned; only if that lookup succeeded would `hg qfinish` run against
the resulting path. -/
def HgTree.commit_patch (t : HgTree) : Except PyExn String :=
  match t.getattr "repo_root" with
  | Except.error e => Except.error e
  | Except.ok r => Except.ok ("qfinish@" ++ r)

/-! ## Local-tree operations as traced effects

For the orchestration flows the three variants are used uniformly; what
differs is which VCS commands a method issues (none for `NoVCSTree`,
whose mutating methods are all `pass`) and whether the underlying
command can fail.  `treeOpResult` propagates an environment-supplied
command outcome for the `hg`/`git` variants and is always successful for
`NoVCSTree`; the `...Actions` functions give the commands issued. -/

/-- Outcome of one local-tree mutating method: always succeeds for
`NoVCSTree` (the method body is `pass`), otherwise the outcome of the
underlying VCS command, supplied by the environment. -/
def treeOpResult (k : TreeKind) (r : Except PyExn Unit) : Except PyExn Unit :=
  match k with
  | TreeKind.novcs => Except.ok ()
  | TreeKind.hg => r
  | TreeKind.git => r

/-- Commands issued by `create_patch`: none for `NoVCSTree`;
`hg qnew name -X root -m message` for `HgTree` (update.py line 186);
`git checkout -b patch_name` for `GitTree` (update.py line 233). -/
def createPatchActions (k : TreeKind) (name message : String) :
    List VcsAction :=
  match k with
  | TreeKind.novcs => []
  | TreeKind.hg => [VcsAction.hgQnew name message]
  | TreeKind.git => [VcsAction.gitCheckoutBranch name]

/-- Commands issued by `add_new`: none for `NoVCSTree`;
`hg add -I pre` (update.py lines 172-177); `git add --no-ignore-removal
pre`, or `git add -a` when no path is given (update.py lines 223-228). -/
def addNewActions (k : TreeKind) (pre : Option String) : List VcsAction :=
  match k with
  | TreeKind.novcs => []
  | TreeKind.hg =>
      [VcsAction.hgAdd (match pre with | some p => ["-I", p] | none => [])]
  | TreeKind.git =>
      [VcsAction.gitAdd
        (match pre with
         | some p => ["--no-ignore-removal", p]
         | none => ["-a"])]

/-- Commands issued by `update_patch`: none for `NoVCSTree`;
`hg qrefresh` with interleaved `-I` filters (update.py lines 188-196);
`git commit -m message paths` for `GitTree`, where the message is the one
remembered by the preceding `create_patch` (update.py lines 235-243). -/
def updatePatchActions (k : TreeKind) (includePaths : Option (List String))
    (message : String) : List VcsAction :=
  match k with
  | TreeKind.novcs => []
  | TreeKind.hg =>
      [VcsAction.hgQrefresh
        ((includePaths.getD []).map (fun i => ["-I", i])).flatten]
  | TreeKind.git =>
      [VcsAction.gitCommit message (includePaths.getD [])]

/-! ## Orchestration: `sync_tests` -/

/-- A manifest snapshot as the orchestrator sees it: an opaque value
whose `rev` attribute is read (`initial_manifest.rev`,
update.py line 395). -/
structure Manifest where
  rev : String
deriving DecidableEq, Repr

/-- Environment of one `sync_tests` call: the outcomes of each external
or VCS-backed step in order (`wpt.update()`, `metadata.load_test_manifest`,
`wpt.copy_work_tree`, `metadata.update_manifest`, and the three local-tree
calls), plus the values interpolated into patch names and paths
(`wpt.rev`, the `relpath` of the test dir, and the test/metadata paths). -/
structure SyncEnv where
  updateResult : Except PyExn Unit
  loadManifestResult : Except PyExn Manifest
  copyWorkTreeResult : Except PyExn Unit
  updateManifestResult : Except PyExn Manifest
  createPatchResult : Except PyExn Unit
  addNewResult : Except PyExn Unit
  updatePatchResult : Except PyExn Unit
  wptRev : String
  testRelPath : String
  testPath : String
  metadataPath : String
deriving DecidableEq, Repr

/-- Outcome of `sync_tests`: the returned manifest pair or the raised
exception, whether the handler at update.py lines 314-317 wrote the
traceback to stderr, and the VCS commands issued on the local tree. -/
structure SyncResult where
  result : Except PyExn (Manifest × Manifest)
  stderrTrace : Bool
  actions : List VcsAction
deriving DecidableEq, Repr

/-- Patch name used by `sync_tests` (update.py line 308). -/
def syncPatchName (rev : String) : String :=
  "web-platform-tests_update_" ++ rev

/-- Patch message used by `sync_tests` (update.py lines 309-311, with
`bug` always `None` in `run_update`, so `bug.id if bug else 0` is `0`). -/
def syncPatchMessage (rev : String) : String :=
  "Bug 0 - Update web-platform-tests to revision " ++ rev

/-- `sync_tests` (update.py lines 299-321).  `wpt.update()` runs before
the `try` block; each subsequent step runs inside it, so its exception is
written to stderr by the handler and re-raised, while an exception from
`wpt.update()` propagates directly.  On success the pre-copy and
post-copy manifests are returned. -/
def sync_tests (k : TreeKind) (env : SyncEnv) : SyncResult :=
  match env.updateResult with
  | Except.error e => { result := Except.error e, stderrTrace := false, actions := [] }
  | Except.ok _ =>
    match env.loadManifestResult with
    | Except.error e => { result := Except.error e, stderrTrace := true, actions := [] }
    | Except.ok m1 =>
      match env.copyWorkTreeResult with
      | Except.error e => { result := Except.error e, stderrTrace := true, actions := [] }
      | Except.ok _ =>
        match env.updateManifestResult with
        | Except.error e => { result := Except.error e, stderrTrace := true, actions := [] }
        | Except.ok m2 =>
          match treeOpResult k env.createPatchResult with
          | Except.error e => { result := Except.error e, stderrTrace := true, actions := [] }
          | Except.ok _ =>
            let a1 := createPatchActions k (syncPatchName env.wptRev)
              (syncPatchMessage env.wptRev)
            match treeOpResult k env.addNewResult with
            | Except.error e => { result := Except.error e, stderrTrace := true, actions := a1 }
            | Except.ok _ =>
              let a2 := addNewActions k (some env.testRelPath)
              match treeOpResult k env.updatePatchResult with
              | Except.error e =>
                  { result := Except.error e, stderrTrace := true, actions := a1 ++ a2 }
              | Except.ok _ =>
                  let a3 := updatePatchActions k
                    (some [env.testPath, env.metadataPath])
                    (syncPatchMessage env.wptRev)
                  { result := Except.ok (m1, m2), stderrTrace := false,
                    actions := a1 ++ a2 ++ a3 }

/-! ## Orchestration: `update_metadata` -/

/-- Environment of one `update_metadata` call: outcomes of the
local-tree `create_patch`, of `metadata.update_expected` (on success, the
needs-human-review list it returns), the local tree's `is_clean` answer
after reconciliation (consulted only for the `hg`/`git` variants:
`NoVCSTree.is_clean` is always `True`), the outcomes of the staging
calls, and the interpolated values. -/
structure MetaEnv where
  createPatchResult : Except PyExn Unit
  updateExpectedResult : Except PyExn (List String)
  isCleanAfter : Bool
  addNewResult : Except PyExn Unit
  updatePatchResult : Except PyExn Unit
  wptRev : String
  metadataRelPath : String
  metadataPath : String
deriving DecidableEq, Repr

/-- `local_tree.is_clean()` at update.py line 348: always `True` for
`NoVCSTree`; the environment-supplied status answer otherwise. -/
def treeIsCleanAfter (k : TreeKind) (env : MetaEnv) : Bool :=
  match k with
  | TreeKind.novcs => true
  | TreeKind.hg => env.isCleanAfter
  | TreeKind.git => env.isCleanAfter

/-- Outcome of `update_metadata`: the raised exception if any,
the `rev_old` value passed to `metadata.update_expected` (`some r` when
that call was made with `rev_old = r`, `none` when execution never
reached it), the needs-human items printed to stderr, whether the
metadata directory was staged and the patch updated, whether the outer
handler wrote a traceback to stderr, and the VCS commands issued. -/
structure MetaResult where
  result : Except PyExn Unit
  revOldPassed : Option (Option String)
  reported : List String
  staged : Bool
  stderrTrace : Bool
  actions : List VcsAction
deriving DecidableEq, Repr

/-- Patch name used by `update_metadata` (update.py line 330). -/
def metaPatchName (rev : String) : String :=
  "web-platform-tests_update_" ++ rev ++ "_metadata"

/-- Patch message used by `update_metadata` (update.py lines 331-333,
with `bug` always `None` in `run_update`). -/
def metaPatchMessage (rev : String) : String :=
  "Bug 0 - Update web-platform-tests expected data to revision " ++ rev

/-- Continuation of `update_metadata` after the guarded `create_patch`
call (update.py lines 337-350): run `metadata.update_expected` with
`rev_old = initial_rev`, print every needs-human item to stderr, and if
the local tree reports itself dirty, stage the metadata directory and
refresh the patch.  Any exception here reaches the outer handler, which
writes the traceback to stderr and re-raises. -/
def updateMetadataRest (k : TreeKind) (env : MetaEnv)
    (initial_rev : Option String) (a1 : List VcsAction) : MetaResult :=
  match env.updateExpectedResult with
  | Except.error e =>
      { result := Except.error e, revOldPassed := some initial_rev,
        reported := [], staged := false, stderrTrace := true, actions := a1 }
  | Except.ok needsHuman =>
      if treeIsCleanAfter k env then
        { result := Except.ok (), revOldPassed := some initial_rev,
          reported := needsHuman, staged := false, stderrTrace := false,
          actions := a1 }
      else
        match treeOpResult k env.addNewResult with
        | Except.error e =>
            { result := Except.error e, revOldPassed := some initial_rev,
              reported := needsHuman, staged := false, stderrTrace := true,
              actions := a1 ++ addNewActions k (some env.metadataRelPath) }
        | Except.ok _ =>
            match treeOpResult k env.updatePatchResult with
            | Except.error e =>
                { result := Except.error e, revOldPassed := some initial_rev,
                  reported := needsHuman, staged := false, stderrTrace := true,
                  actions := a1 ++ addNewActions k (some env.metadataRelPath) }
            | Except.ok _ =>
                { result := Except.ok (), revOldPassed := some initial_rev,
                  reported := needsHuman, staged := true, stderrTrace := false,
                  actions := a1 ++ addNewActions k (some env.metadataRelPath)
                    ++ updatePatchActions k (some [env.metadataPath])
                      (metaPatchMessage env.wptRev) }

/-- `update_metadata` (update.py lines 324-356).  The `create_patch` call
is wrapped in `try/except subprocess.CalledProcessError: pass`, so that
failure kind is tolerated and execution proceeds; any other exception
from it reaches the outer handler (stderr traceback, re-raise).
`initial_rev` is threaded to `metadata.update_expected` as `rev_old`. -/
def update_metadata (k : TreeKind) (env : MetaEnv)
    (initial_rev : Option String) : MetaResult :=
  match treeOpResult k env.createPatchResult with
  | Except.ok _ =>
      updateMetadataRest k env initial_rev
        (createPatchActions k (metaPatchName env.wptRev)
          (metaPatchMessage env.wptRev))
  | Except.error PyExn.calledProcessError =>
      updateMetadataRest k env initial_rev []
  | Except.error e =>
      { result := Except.error e, revOldPassed := none, reported := [],
        staged := false, stderrTrace := true, actions := [] }

/-! ## Orchestration: `run_update` and `main` -/

/-- Probe order of the local-tree variants (update.py line 370). -/
def treeProbeOrder : List TreeKind :=
  [TreeKind.hg, TreeKind.git, TreeKind.novcs]

/-- The class-level `is_type` predicates against the current working
directory: `HgTree.is_type` is whether `hg root` succeeds there,
`GitTree.is_type` whether `git rev-parse --show-toplevel` succeeds, and
`NoVCSTree.is_type` returns `True` unconditionally. -/
def TreeKind.isType (k : TreeKind) (isHgCwd isGitCwd : Bool) : Bool :=
  match k with
  | TreeKind.hg => isHgCwd
  | TreeKind.git => isGitCwd
  | TreeKind.novcs => true

/-- Variant selection in `run_update` (update.py lines 369-376): with the
`patch` option set, walk `[HgTree, GitTree, NoVCSTree]` and instantiate
the first whose `is_type` succeeds on the current directory; with `patch`
off, use `NoVCSTree` directly. -/
def selectTree (patchFlag isHgCwd isGitCwd : Bool) : Option TreeKind :=
  if patchFlag then
    treeProbeOrder.find? (fun k => k.isType isHgCwd isGitCwd)
  else
    some TreeKind.novcs

/-- Environment of one `run_update` invocation: the `command-args`
options it consults, the cwd probe and status answers, and the
environments of the two flows. -/
structure UpdateEnv where
  patchFlag : Bool
  no_check_clean : Bool
  syncFlag : Bool
  runLogFlag : Bool
  isHgCwd : Bool
  isGitCwd : Bool
  hgCleanCwd : Bool
  gitCleanCwd : Bool
  syncEnv : SyncEnv
  metaEnv : MetaEnv
deriving DecidableEq, Repr

/-- `local_tree.is_clean()` at update.py line 378 for the selected
variant. -/
def treeIsCleanStart (k : TreeKind) (env : UpdateEnv) : Bool :=
  match k with
  | TreeKind.novcs => true
  | TreeKind.hg => env.hgCleanCwd
  | TreeKind.git => env.gitCleanCwd

/-- A Python value as far as `main`'s truthiness test is concerned:
`run_update` has no `return` statement, so the only value it can produce
by completing normally is `None`. -/
inductive PyValue where
  | noneVal
deriving DecidableEq, Repr

/-- Python truthiness of the values `run_update` can return:
`None` is falsy. -/
def pyTruthy : PyValue → Bool
  | PyValue.noneVal => false

/-- Trace of a completed `run_update`: which variant was used, whether
each flow ran, the `rev_old` passed to `metadata.update_expected` when
the metadata flow ran, the needs-human items reported, whether the
metadata patch was staged, and the VCS commands of the sync flow. -/
structure RunInfo where
  treeUsed : TreeKind
  syncRan : Bool
  syncActions : List VcsAction
  metaRan : Bool
  revOldPassed : Option (Option String)
  reported : List String
  staged : Bool
deriving DecidableEq, Repr

/-- Outcome of `run_update`: a `sys.exit(code)` escape, an uncaught
exception (with whether a traceback was written to stderr by a flow
handler), or normal completion with the returned Python value. -/
inductive RunResult where
  | exited (code : Nat)
  | raised (e : PyExn) (stderrTrace : Bool)
  | completed (ret : PyValue) (info : RunInfo)
deriving DecidableEq, Repr

/-- The tail of `run_update` (update.py lines 392-398): `initial_rev` is
`None` unless the sync flow ran, and `update_metadata` runs only when the
`run_log` option is truthy. -/
def runMetadataPhase (env : UpdateEnv) (k : TreeKind)
    (initial_rev : Option String) (syncRan : Bool)
    (sacts : List VcsAction) : RunResult :=
  if env.runLogFlag then
    let mres := update_metadata k env.metaEnv initial_rev
    match mres.result with
    | Except.error e => RunResult.raised e mres.stderrTrace
    | Except.ok _ =>
        RunResult.completed PyValue.noneVal
          { treeUsed := k, syncRan := syncRan, syncActions := sacts,
            metaRan := true, revOldPassed := mres.revOldPassed,
            reported := mres.reported, staged := mres.staged }
  else
    RunResult.completed PyValue.noneVal
      { treeUsed := k, syncRan := syncRan, syncActions := sacts,
        metaRan := false, revOldPassed := none, reported := [],
        staged := false }

/-- `run_update` (update.py lines 359-399).  Selects the local-tree
variant, exits with status 1 when the tree is not clean and
`no_check_clean` is not set, runs `sync_tests` when the `sync` option is
set (binding `initial_rev` to the pre-copy manifest's `rev`), and runs
`update_metadata` when `run_log` is truthy.  The body has no `return`
statement, so normal completion produces `None`. -/
def run_update (env : UpdateEnv) : RunResult :=
  let k := (selectTree env.patchFlag env.isHgCwd env.isGitCwd).getD
    TreeKind.novcs
  if !(treeIsCleanStart k env) && !(env.no_check_clean) then
    RunResult.exited 1
  else if env.syncFlag then
    let sres := sync_tests k env.syncEnv
    match sres.result with
    | Except.error e => RunResult.raised e sres.stderrTrace
    | Except.ok (m1, _) =>
        runMetadataPhase env k (some m1.rev) true sres.actions
  else
    runMetadataPhase env k none false []

/-- `main` (update.py lines 401-405) as the process exit code:
`success = run_update(**vars(args)); sys.exit(0 if success else 1)`.
A `sys.exit(1)` raised inside `run_update` propagates as the process
status; an exception that escapes `run_update` terminates the
interpreter with status 1; on normal completion the returned value is
tested for truthiness. -/
def main_exit (env : UpdateEnv) : Nat :=
  match run_update env with
  | RunResult.exited code => code
  | RunResult.raised _ _ => 1
  | RunResult.completed v _ => if pyTruthy v then 0 else 1

/-- Whether a `run_update` outcome is a normal completion (no
`sys.exit`, no exception). -/
def RunResult.isCompleted : RunResult → Bool
  | RunResult.completed _ _ => true
  | _ => false

/-! ## Concrete inputs used by witnesses and counterexamples -/

/-- A sync environment in which every collaborator step succeeds. -/
def syncEnvOk : SyncEnv :=
  { updateResult := Except.ok ()
    loadManifestResult := Except.ok { rev := "rev0" }
    copyWorkTreeResult := Except.ok ()
    updateManifestResult := Except.ok { rev := "rev1" }
    createPatchResult := Except.ok ()
    addNewResult := Except.ok ()
    updatePatchResult := Except.ok ()
    wptRev := "abc123"
    testRelPath := "tests/wpt"
    testPath := "/data/tests"
    metadataPath := "/data/meta" }

/-- A metadata environment in which every collaborator step succeeds and
the tree is clean afterwards. -/
def metaEnvOk : MetaEnv :=
  { createPatchResult := Except.ok ()
    updateExpectedResult := Except.ok []
    isCleanAfter := true
    addNewResult := Except.ok ()
    updatePatchResult := Except.ok ()
    wptRev := "abc123"
    metadataRelPath := "meta"
    metadataPath := "/data/meta" }

/-- A fully successful invocation: clean git local tree, `patch`, `sync`
and `run_log` options set, every collaborator step succeeding. -/
def envSuccess : UpdateEnv :=
  { patchFlag := true
    no_check_clean := false
    syncFlag := true
    runLogFlag := true
    isHgCwd := false
    isGitCwd := true
    hgCleanCwd := true
    gitCleanCwd := true
    syncEnv := syncEnvOk
    metaEnv := metaEnvOk }

/-- A mirror whose tracked tree contains a submodule entry `sub` (a
directory on disk) and a file inside it. -/
def mirrorTreeSub : MirrorTree :=
  { treePaths := ["sub", "sub/a.html"]
    sourceIsDir := fun p => p == "sub" }

/-- A concrete mirror construction. -/
def mirror0 : WebPlatformTests :=
  { remote_url := "https://example.org/wpt.git"
    repo_path := "/data/sync"
    target_rev := "origin/master"
    local_branch := "b0" }

/-- A clone path that is not yet a recognised git repository. -/
def worldFresh : GitWorld :=
  { pathExists := false
    isGitRoot := false
    statusPorcelain := ""
    resolve := fun _ => "abc123"
    head := ""
    branches := []
    submodulesUpdated := false }

/-- An existing clean clone with two prior isolation branches on disk. -/
def worldClean : GitWorld :=
  { pathExists := true
    isGitRoot := true
    statusPorcelain := ""
    resolve := fun _ => "abc123"
    head := "olderhash"
    branches := ["old-iso-1", "old-iso-2"]
    submodulesUpdated := false }

/-- An existing clone with uncommitted changes. -/
def worldDirty : GitWorld :=
  { pathExists := true
    isGitRoot := true
    statusPorcelain := " M tools/runner.py"
    resolve := fun _ => "abc123"
    head := "olderhash"
    branches := []
    submodulesUpdated := false }

/-! ## Helper lemmas -/

/-- A `GitTree` call history without `create_patch` leaves the pending
commit message unset. -/
theorem applyOps_message_none (ops : List GitTreeOp) :
    ∀ s : GitTreeState, s.message = none → hasCreatePatch ops = false →
      (GitTree.applyOps s ops).message = none := by
  induction ops with
  | nil => intro s hs _; simpa [GitTree.applyOps] using hs
  | cons op ops ih =>
    intro s hs h
    cases op with
    | isClean => exact ih s hs (by simpa [hasCreatePatch] using h)
    | addNew pre => exact ih s hs (by simpa [hasCreatePatch] using h)
    | createPatch n m => simp [hasCreatePatch] at h
    | commitPatch => exact ih s hs (by simpa [hasCreatePatch] using h)

/-! ## C2: the wipe-then-populate law of `copy_work_tree` -/

/-- C2 counterexample: with a submodule entry `sub` in the tracked-tree
listing (a directory on disk), a successful `copy_work_tree` does not
place `sub` in the destination, because the copy loop skips paths whose
source is a directory; so the file set under `dest` is not equal to
`tree_paths() ∪ overlay files` as the claim states. -/
theorem c2_counterexample :
    "sub" ∈ mirrorTreeSub.treePaths ∧
    "sub" ∉ copy_work_tree mirrorTreeSub ["stale.txt"] := by
  decide

/-- C2 (amended): after `copy_work_tree(dest)` on a pre-existing
destination, the files under `dest` are exactly the `tree_paths()`
entries whose source is not a directory (submodule gitlink entries are
skipped) together with the two overlay files; and no file present in
`dest` before the call survives unless it is in that union. -/
theorem c2_copy_work_tree_amended (t : MirrorTree) (destBefore : List String) :
    (∀ p, p ∈ copy_work_tree t destBefore ↔
      ((p ∈ t.treePaths ∧ t.sourceIsDir p = false) ∨ p ∈ overlayFiles)) ∧
    (∀ p, p ∈ destBefore → p ∈ copy_work_tree t destBefore →
      ((p ∈ t.treePaths ∧ t.sourceIsDir p = false) ∨ p ∈ overlayFiles)) := by
  constructor
  · intro p
    simp [copy_work_tree, wipeDest, List.mem_filter, List.mem_append]
  · intro p _ hmem
    simpa [copy_work_tree, wipeDest, List.mem_filter, List.mem_append]
      using hmem

/-- C2 witness: a file named like the first overlay file that was already
present in the destination is in the post-copy file set, and the amended
theorem accounts for it through the overlay component of the union. -/
theorem c2_copy_work_tree_amended_witness :
    "testharness_runner.html" ∈
      copy_work_tree mirrorTreeSub ["testharness_runner.html"] ∧
    (("testharness_runner.html" ∈ mirrorTreeSub.treePaths ∧
        mirrorTreeSub.sourceIsDir "testharness_runner.html" = false) ∨
      "testharness_runner.html" ∈ overlayFiles) := by
  refine ⟨by decide, ?_⟩
  exact (c2_copy_work_tree_amended mirrorTreeSub
    ["testharness_runner.html"]).2 "testharness_runner.html"
    (by decide) (by decide)

/-! ## C5: `GitTree` patch-message ordering -/

/-- C5: on every `GitTree` instance whose call history contains no
`create_patch`, `update_patch` fails deterministically with the
assertion on the unset pending message; and immediately after any
`create_patch(name, message)` call, `update_patch` proceeds and commits
with that remembered message. -/
theorem c5_git_update_patch_ordering :
    (∀ (ops : List GitTreeOp) (incl : Option (List String)),
      hasCreatePatch ops = false →
      GitTree.update_patch (GitTree.applyOps gitTreeInit ops) incl =
        Except.error PyExn.assertionError) ∧
    (∀ (s : GitTreeState) (n m : String) (incl : Option (List String)),
      GitTree.update_patch ((GitTree.create_patch s n m).1) incl =
        Except.ok (VcsAction.gitCommit m (incl.getD []))) := by
  constructor
  · intro ops incl h
    have hm := applyOps_message_none ops gitTreeInit rfl h
    unfold GitTree.update_patch
    rw [hm]
  · intro s n m incl
    rfl

/-- C5 witness: a history of `is_clean`, `add_new` and `commit_patch`
calls (no `create_patch`) leaves `update_patch` failing, and a
`create_patch` followed by `update_patch` commits with the remembered
message. -/
theorem c5_git_update_patch_witness :
    hasCreatePatch [GitTreeOp.isClean, GitTreeOp.addNew none,
      GitTreeOp.commitPatch] = false ∧
    GitTree.update_patch (GitTree.applyOps gitTreeInit
      [GitTreeOp.isClean, GitTreeOp.addNew none, GitTreeOp.commitPatch])
      (some ["/data/tests"]) = Except.error PyExn.assertionError ∧
    GitTree.update_patch ((GitTree.create_patch gitTreeInit
      "web-platform-tests_update_abc123" "Bug 0 - Update").1) none =
      Except.ok (VcsAction.gitCommit "Bug 0 - Update" []) := by
  refine ⟨by decide, ?_, ?_⟩
  · exact c5_git_update_patch_ordering.1 _ _ (by decide)
  · exact c5_git_update_patch_ordering.2 _ _ _ _

/-! ## C6: `HgTree.commit_patch` -/

/-- C6: on every `HgTree` instance, `commit_patch` raises
`AttributeError` before the queue-finalizing `hg qfinish` can run,
because its body reads `self.repo_root` and `__init__` only ever assigns
`self.root` and `self.hg`; the claim that it finalizes the patch queue
against the tree's root is contradicted by the code. -/
theorem c6_commit_patch_attribute_error (t : HgTree) :
    HgTree.commit_patch t = Except.error PyExn.attributeError := by
  simp [HgTree.commit_patch, HgTree.getattr]

/-! ## C3 and C4: mirror `update()` and `revision` -/

/-- C3: when the clone path is not a recognised git repository,
`update()` clones and checks out a new isolation branch at the target
revision; otherwise it raises `RepositoryError` exactly when the clone's
`git status --porcelain` output is non-empty, and when clean it fetches
the target revision into the isolation branch and checks it out; every
successful case ends with the submodules initialised and recursively
updated. -/
theorem c3_mirror_update_spec (m : WebPlatformTests) (w : GitWorld) :
    (w.isGitRoot = false →
      ∃ w', m.update w = Except.ok w' ∧ w'.isGitRoot = true ∧
        w'.head = w.resolve m.target_rev ∧
        m.local_branch ∈ w'.branches ∧ w'.submodulesUpdated = true) ∧
    (w.isGitRoot = true →
      ((∃ e, m.update w = Except.error e) ↔ w.statusPorcelain ≠ "") ∧
      (w.statusPorcelain = "" →
        ∃ w', m.update w = Except.ok w' ∧
          w'.head = w.resolve m.target_rev ∧
          m.local_branch ∈ w'.branches ∧ w'.submodulesUpdated = true) ∧
      (w.statusPorcelain ≠ "" →
        m.update w = Except.error (PyExn.repositoryError
          ("Repository in " ++ m.repo_path ++ " not clean")))) := by
  constructor
  · intro h
    unfold WebPlatformTests.update
    simp only [h, if_pos rfl]
    exact ⟨_, rfl, rfl, rfl, List.mem_cons_self _ _, rfl⟩
  · intro h
    have hupdate : m.update w =
        if w.statusPorcelain ≠ "" then
          Except.error (PyExn.repositoryError
            ("Repository in " ++ m.repo_path ++ " not clean"))
        else
          Except.ok { w with
                      pathExists := true
                      head := w.resolve m.target_rev
                      branches := m.local_branch :: w.branches
                      submodulesUpdated := true } := by
      unfold WebPlatformTests.update
      rw [if_neg (by simp [h])]
    by_cases hs : w.statusPorcelain = ""
    · refine ⟨?_, ?_, ?_⟩
      · simp only [hs, ne_eq, not_true_eq_false, iff_false, not_exists]
        intro e he
        rw [hupdate, if_neg (fun hn => hn hs)] at he
        exact Except.noConfusion he
      · intro _
        rw [hupdate, if_neg (fun hn => hn hs)]
        exact ⟨_, rfl, rfl, List.mem_cons_self _ _, rfl⟩
      · intro hd
        exact absurd hs hd
    · refine ⟨?_, ?_, ?_⟩
      · simp only [ne_eq, hs, not_false_eq_true, iff_true]
        exact ⟨PyExn.repositoryError
          ("Repository in " ++ m.repo_path ++ " not clean"),
          by rw [hupdate, if_pos hs]⟩
      · intro hc
        exact absurd hc hs
      · intro _
        rw [hupdate, if_pos hs]

/-- C3 witness: a fresh clone path is cloned and checked out at the
target; a dirty existing clone raises `RepositoryError`; a clean
existing clone with two prior isolation branches is fetched and checked
out with submodules updated. -/
theorem c3_mirror_update_witness :
    (∃ w', mirror0.update worldFresh = Except.ok w' ∧
      w'.isGitRoot = true ∧
      w'.head = worldFresh.resolve mirror0.target_rev ∧
      mirror0.local_branch ∈ w'.branches ∧ w'.submodulesUpdated = true) ∧
    (mirror0.update worldDirty = Except.error (PyExn.repositoryError
      ("Repository in " ++ mirror0.repo_path ++ " not clean"))) ∧
    (∃ w', mirror0.update worldClean = Except.ok w' ∧
      w'.head = worldClean.resolve mirror0.target_rev ∧
      mirror0.local_branch ∈ w'.branches ∧ w'.submodulesUpdated = true) := by
  refine ⟨(c3_mirror_update_spec mirror0 worldFresh).1 rfl, ?_, ?_⟩
  · exact ((c3_mirror_update_spec mirror0 worldDirty).2 rfl).2.2 (by decide)
  · exact ((c3_mirror_update_spec mirror0 worldClean).2 rfl).2.1 rfl

/-- The clone state after a successful fetch-based `update()` of
`worldClean` by `mirror0`. -/
def worldCleanAfter : GitWorld :=
  { pathExists := true
    isGitRoot := true
    statusPorcelain := ""
    resolve := fun _ => "abc123"
    head := "abc123"
    branches := ["b0", "old-iso-1", "old-iso-2"]
    submodulesUpdated := true }

/-- C4: after every successful `update()` call, the `rev` property equals
the hash the target revision resolved to at call time — the theorem
quantifies over every starting world, in particular over any number of
prior isolation branches in `w.branches` — and on a path that is not a
recognised git repository, `rev` is `None`. -/
theorem c4_revision_after_update (m : WebPlatformTests) (w w' : GitWorld) :
    (m.update w = Except.ok w' →
      WebPlatformTests.rev w' = some (w.resolve m.target_rev)) ∧
    (w.isGitRoot = false → WebPlatformTests.rev w = none) := by
  constructor
  · intro h
    unfold WebPlatformTests.update at h
    by_cases hg : w.isGitRoot = false
    · simp only [hg, if_pos rfl] at h
      cases h
      rfl
    · have hg' : w.isGitRoot = true := by
        cases hb : w.isGitRoot
        · exact absurd hb hg
        · rfl
      rw [if_neg (by simp [hg'])] at h
      by_cases hs : w.statusPorcelain = ""
      · rw [if_neg (fun hn => hn hs)] at h
        cases h
        unfold WebPlatformTests.rev
        simp [hg']
      · rw [if_pos hs] at h
        exact Except.noConfusion h
  · intro h
    unfold WebPlatformTests.rev
    simp [h]

/-- C4 witness: updating the clean clone with two prior isolation
branches leaves `rev` equal to the resolved target hash `abc123`, and a
fresh unrecognised path has `rev = None`. -/
theorem c4_revision_witness :
    WebPlatformTests.rev worldCleanAfter =
      some (worldClean.resolve mirror0.target_rev) ∧
    WebPlatformTests.rev worldFresh = none := by
  exact ⟨(c4_revision_after_update mirror0 worldClean worldCleanAfter).1 rfl,
    (c4_revision_after_update mirror0 worldFresh worldFresh).2 rfl⟩

/-! ## C1: process exit code of `main` -/

/-- C1: evaluation of `main` on a fully successful invocation.
`run_update` completes normally, but because its body has no `return`
statement it produces `None`, so `sys.exit(0 if success else 1)` in
`main` exits with code 1 — not 0 as the claim (and the spec's "0 on
success") states.  The dead `0` branch shows the intent; the missing
return value in `run_update` is the slip. -/
theorem c1_successful_run_exits_one :
    (run_update envSuccess).isCompleted = true ∧
    main_exit envSuccess = 1 := by
  exact ⟨rfl, rfl⟩

/-! ## C9: the metadata flow -/

/-- C9: with `metadata.update_expected` succeeding and the staging calls
succeeding, the metadata flow completes even when opening the second
patch fails with `CalledProcessError` (tolerated as non-fatal), every
element of the needs-human-review list is reported to the operator, and
the metadata directory is staged and the patch committed exactly when
the local tree is dirty after reconciliation. -/
theorem c9_update_metadata_flow (k : TreeKind) (env : MetaEnv)
    (r : Option String) (needs : List String)
    (hc : treeOpResult k env.createPatchResult = Except.ok () ∨
      treeOpResult k env.createPatchResult =
        Except.error PyExn.calledProcessError)
    (hu : env.updateExpectedResult = Except.ok needs)
    (ha : treeOpResult k env.addNewResult = Except.ok ())
    (hp : treeOpResult k env.updatePatchResult = Except.ok ()) :
    (update_metadata k env r).result = Except.ok () ∧
    (update_metadata k env r).reported = needs ∧
    ((update_metadata k env r).staged = true ↔
      treeIsCleanAfter k env = false) := by
  have hrest : ∀ a1, (updateMetadataRest k env r a1).result = Except.ok () ∧
      (updateMetadataRest k env r a1).reported = needs ∧
      ((updateMetadataRest k env r a1).staged = true ↔
        treeIsCleanAfter k env = false) := by
    intro a1
    unfold updateMetadataRest
    simp only [hu]
    by_cases hcl : treeIsCleanAfter k env = true
    · rw [if_pos hcl]
      simp [hcl]
    · rw [if_neg hcl]
      simp only [ha, hp]
      have hcl' : treeIsCleanAfter k env = false := by
        cases hb : treeIsCleanAfter k env
        · rfl
        · exact absurd hb hcl
      simp [hcl']
  unfold update_metadata
  rcases hc with hok | hcpe
  · rw [hok]
    exact hrest _
  · rw [hcpe]
    exact hrest _

/-- A metadata environment where the second patch already exists
(`CalledProcessError`), reconciliation returns two needs-human files,
and the tree is dirty afterwards. -/
def metaEnvReview : MetaEnv :=
  { createPatchResult := Except.error PyExn.calledProcessError
    updateExpectedResult := Except.ok ["a.html.ini", "b.html.ini"]
    isCleanAfter := false
    addNewResult := Except.ok ()
    updatePatchResult := Except.ok ()
    wptRev := "abc123"
    metadataRelPath := "meta"
    metadataPath := "/data/meta" }

/-- C9 witness: on a git tree with an already-existing metadata patch, a
non-empty review set and a dirty tree, the flow completes, reports both
files and stages the metadata patch. -/
theorem c9_update_metadata_witness :
    (update_metadata TreeKind.git metaEnvReview (some "rev0")).result =
      Except.ok () ∧
    (update_metadata TreeKind.git metaEnvReview (some "rev0")).reported =
      ["a.html.ini", "b.html.ini"] ∧
    ((update_metadata TreeKind.git metaEnvReview (some "rev0")).staged = true ↔
      treeIsCleanAfter TreeKind.git metaEnvReview = false) :=
  c9_update_metadata_flow TreeKind.git metaEnvReview (some "rev0")
    ["a.html.ini", "b.html.ini"] (Or.inr rfl) rfl rfl rfl

/-! ## C10: error handling around `wpt.update()` in `sync_tests` -/

/-- C10: `wpt.update()` runs before the wrapped critical section of
`sync_tests`: its exception propagates with no traceback written to
stderr, whereas an exception from any later step is written to stderr by
the handler and then re-raised. -/
theorem c10_sync_tests_error_handling (k : TreeKind) (env : SyncEnv) :
    (∀ e, env.updateResult = Except.error e →
      sync_tests k env =
        { result := Except.error e, stderrTrace := false, actions := [] }) ∧
    (env.updateResult = Except.ok () →
      ∀ e, (sync_tests k env).result = Except.error e →
        (sync_tests k env).stderrTrace = true) := by
  constructor
  · intro e he
    unfold sync_tests
    rw [he]
  · intro h e
    unfold sync_tests
    rw [h]
    cases env.loadManifestResult with
    | error e1 => intro _; rfl
    | ok m1 =>
      cases env.copyWorkTreeResult with
      | error e2 => intro _; rfl
      | ok u2 =>
        cases env.updateManifestResult with
        | error e3 => intro _; rfl
        | ok m2 =>
          cases treeOpResult k env.createPatchResult with
          | error e4 => intro _; rfl
          | ok u4 =>
            cases treeOpResult k env.addNewResult with
            | error e5 => intro _; rfl
            | ok u5 =>
              cases treeOpResult k env.updatePatchResult with
              | error e6 => intro _; rfl
              | ok u6 => intro hcontra; exact Except.noConfusion hcontra

/-- The successful sync environment with `wpt.update()` failing on a
dirty clone. -/
def syncEnvUpdateFail : SyncEnv :=
  { syncEnvOk with
    updateResult := Except.error
      (PyExn.repositoryError "Repository in /data/sync not clean") }

/-- The successful sync environment with the work-tree copy failing. -/
def syncEnvCopyFail : SyncEnv :=
  { syncEnvOk with
    copyWorkTreeResult := Except.error PyExn.calledProcessError }

/-- C10 witness: a `RepositoryError` from `wpt.update()` propagates with
no stderr traceback, while a failure of the work-tree copy (a later
step) is written to stderr. -/
theorem c10_sync_tests_witness :
    sync_tests TreeKind.git syncEnvUpdateFail =
      { result := Except.error
          (PyExn.repositoryError "Repository in /data/sync not clean"),
        stderrTrace := false, actions := [] } ∧
    (sync_tests TreeKind.git syncEnvCopyFail).stderrTrace = true := by
  constructor
  · exact (c10_sync_tests_error_handling TreeKind.git syncEnvUpdateFail).1 _ rfl
  · exact (c10_sync_tests_error_handling TreeKind.git syncEnvCopyFail).2 rfl
      PyExn.calledProcessError rfl

/-! ## C7: variant selection and the patch-off sync flow -/

/-- C7: variant selection probes `Hg`, `Git`, `NoVCS` in that fixed
order and always selects some variant (`NoVCSTree.is_type` is
universal); with the `patch` option off, the `NoVCS` variant is used,
`run_update` still performs the sync flow when requested, and the
`create_patch` / `update_patch` calls of that flow are no-ops issuing
no VCS command (no artifact). -/
theorem c7_variant_selection (env : UpdateEnv) :
    (selectTree env.patchFlag env.isHgCwd env.isGitCwd).isSome = true ∧
    (env.patchFlag = true →
      selectTree env.patchFlag env.isHgCwd env.isGitCwd =
        some (if env.isHgCwd then TreeKind.hg
          else if env.isGitCwd then TreeKind.git else TreeKind.novcs)) ∧
    (env.patchFlag = false →
      selectTree env.patchFlag env.isHgCwd env.isGitCwd =
        some TreeKind.novcs ∧
      (env.syncFlag = true → env.runLogFlag = false →
        env.syncEnv.updateResult = Except.ok () →
        ∀ m1, env.syncEnv.loadManifestResult = Except.ok m1 →
        env.syncEnv.copyWorkTreeResult = Except.ok () →
        ∀ m2, env.syncEnv.updateManifestResult = Except.ok m2 →
        ∃ info, run_update env = RunResult.completed PyValue.noneVal info ∧
          info.treeUsed = TreeKind.novcs ∧ info.syncRan = true ∧
          info.syncActions = [])) := by
  refine ⟨?_, ?_, ?_⟩
  · cases hp : env.patchFlag <;>
      cases hh : env.isHgCwd <;>
      cases hg2 : env.isGitCwd <;>
      simp [selectTree, treeProbeOrder, TreeKind.isType, List.find?]
  · intro hp
    cases hh : env.isHgCwd <;>
      cases hg2 : env.isGitCwd <;>
      simp [selectTree, treeProbeOrder, TreeKind.isType, List.find?, hp]
  · intro hp
    refine ⟨by simp [selectTree, hp], ?_⟩
    intro hsync hlog hupd m1 hm1 hcopy m2 hm2
    have hsres : sync_tests TreeKind.novcs env.syncEnv =
        { result := Except.ok (m1, m2), stderrTrace := false,
          actions := [] } := by
      unfold sync_tests
      rw [hupd, hm1, hcopy, hm2]
      rfl
    refine ⟨{ treeUsed := TreeKind.novcs, syncRan := true, syncActions := [],
              metaRan := false, revOldPassed := none, reported := [],
              staged := false }, ?_, rfl, rfl, rfl⟩
    unfold run_update
    simp only [selectTree, hp, if_false, Bool.false_eq_true, Option.getD_some,
      treeIsCleanStart, Bool.not_true, Bool.false_and, hsync, if_true, hsres]
    unfold runMetadataPhase
    simp [hlog]

/-- A patch-off invocation: `patch` false, `sync` true, `run_log` off,
all sync collaborators succeeding. -/
def envNoPatch : UpdateEnv :=
  { envSuccess with patchFlag := false, runLogFlag := false }

/-- C7 witness: with the patch option off and sync requested, the run
completes using the `NoVCS` variant, the sync flow runs, and no VCS
command is issued. -/
theorem c7_variant_selection_witness :
    ∃ info, run_update envNoPatch = RunResult.completed PyValue.noneVal info ∧
      info.treeUsed = TreeKind.novcs ∧ info.syncRan = true ∧
      info.syncActions = [] :=
  ((c7_variant_selection envNoPatch).2.2 rfl).2 rfl rfl rfl
    { rev := "rev0" } rfl rfl { rev := "rev1" } rfl

/-! ## C8: revision threading between the two flows -/

/-- Every branch of the post-`create_patch` part of the metadata flow
passes `initial_rev` to `metadata.update_expected` as `rev_old`. -/
theorem updateMetadataRest_revOld (k : TreeKind) (env : MetaEnv)
    (r : Option String) (a1 : List VcsAction) :
    (updateMetadataRest k env r a1).revOldPassed = some r := by
  unfold updateMetadataRest
  cases env.updateExpectedResult with
  | error e => rfl
  | ok needs =>
    dsimp only
    by_cases hcl : treeIsCleanAfter k env = true
    · rw [if_pos hcl]
    · rw [if_neg hcl]
      cases treeOpResult k env.addNewResult with
      | error e => rfl
      | ok u =>
        cases treeOpResult k env.updatePatchResult with
        | error e => rfl
        | ok u => rfl

/-- When the metadata flow completes without raising, the `rev_old` it
passed to `metadata.update_expected` is exactly its `initial_rev`
argument. -/
theorem update_metadata_revOld (k : TreeKind) (env : MetaEnv)
    (r : Option String) :
    (update_metadata k env r).result = Except.ok () →
    (update_metadata k env r).revOldPassed = some r := by
  unfold update_metadata
  cases hc : treeOpResult k env.createPatchResult with
  | ok u => intro _; exact updateMetadataRest_revOld k env r _
  | error e =>
    cases e with
    | repositoryError msg => exact fun h => Except.noConfusion h
    | calledProcessError => intro _; exact updateMetadataRest_revOld k env r _
    | assertionError => exact fun h => Except.noConfusion h
    | attributeError => exact fun h => Except.noConfusion h
    | other msg => exact fun h => Except.noConfusion h

/-- A completed metadata phase records the selected variant, whether the
sync flow ran, the sync flow's actions, and — when the metadata flow ran
— the `rev_old` it passed. -/
theorem runMetadataPhase_completed (env : UpdateEnv) (k : TreeKind)
    (r : Option String) (sr : Bool) (sa : List VcsAction)
    (v : PyValue) (info : RunInfo)
    (h : runMetadataPhase env k r sr sa = RunResult.completed v info) :
    info.treeUsed = k ∧ info.syncRan = sr ∧ info.syncActions = sa ∧
    (info.metaRan = true → info.revOldPassed = some r) := by
  unfold runMetadataPhase at h
  by_cases hl : env.runLogFlag = true
  · rw [if_pos hl] at h
    simp only at h
    cases hm : (update_metadata k env.metaEnv r).result with
    | error e => rw [hm] at h; exact RunResult.noConfusion h
    | ok u =>
      rw [hm] at h
      cases h
      refine ⟨rfl, rfl, rfl, fun _ => ?_⟩
      cases u
      exact update_metadata_revOld k env.metaEnv r hm
  · rw [if_neg hl] at h
    cases h
    exact ⟨rfl, rfl, rfl, fun hf => absurd hf Bool.false_ne_true⟩

/-- C8: on every completed invocation in which the metadata flow ran,
the `rev_old` passed to `metadata.update_expected` equals the `rev` of
the pre-copy manifest snapshot returned by this invocation's
`sync_tests` call; and when the sync flow did not run, `rev_old` is
`None`. -/
theorem c8_rev_old_threading (env : UpdateEnv) (v : PyValue)
    (info : RunInfo)
    (h : run_update env = RunResult.completed v info)
    (hm : info.metaRan = true) :
    (env.syncFlag = true →
      ∃ m1 m2,
        (sync_tests ((selectTree env.patchFlag env.isHgCwd
            env.isGitCwd).getD TreeKind.novcs) env.syncEnv).result =
          Except.ok (m1, m2) ∧
        info.syncRan = true ∧ info.revOldPassed = some (some m1.rev)) ∧
    (env.syncFlag = false →
      info.syncRan = false ∧ info.revOldPassed = some none) := by
  unfold run_update at h
  by_cases hdirty : (!(treeIsCleanStart ((selectTree env.patchFlag
      env.isHgCwd env.isGitCwd).getD TreeKind.novcs) env) &&
      !(env.no_check_clean)) = true
  · rw [if_pos hdirty] at h
    exact RunResult.noConfusion h
  · rw [if_neg hdirty] at h
    by_cases hsync : env.syncFlag = true
    · rw [if_pos hsync] at h
      simp only at h
      cases hs : (sync_tests ((selectTree env.patchFlag env.isHgCwd
          env.isGitCwd).getD TreeKind.novcs) env.syncEnv).result with
      | error e => rw [hs] at h; exact RunResult.noConfusion h
      | ok p =>
        obtain ⟨m1, m2⟩ := p
        rw [hs] at h
        have hph := runMetadataPhase_completed env _ (some m1.rev) true
          _ v info h
        refine ⟨fun _ => ⟨m1, m2, rfl, hph.2.1, hph.2.2.2 hm⟩, fun hf => ?_⟩
        rw [hsync] at hf
        exact Bool.noConfusion hf
    · rw [if_neg hsync] at h
      have hph := runMetadataPhase_completed env _ none false [] v info h
      refine ⟨fun ht => absurd ht hsync, fun _ => ⟨hph.2.1, hph.2.2.2 hm⟩⟩

/-- C8 witness: on the fully successful invocation with both flows
enabled, the metadata flow ran and was passed `rev_old = "rev0"`, the
`rev` of the pre-copy manifest snapshot. -/
theorem c8_rev_old_threading_witness :
    ∃ info, run_update envSuccess = RunResult.completed PyValue.noneVal info ∧
      info.metaRan = true ∧
      (∃ m1 m2,
        (sync_tests ((selectTree envSuccess.patchFlag envSuccess.isHgCwd
            envSuccess.isGitCwd).getD TreeKind.novcs)
            envSuccess.syncEnv).result = Except.ok (m1, m2) ∧
        info.syncRan = true ∧ info.revOldPassed = some (some m1.rev)) := by
  refine ⟨_, rfl, rfl, ?_⟩
  exact (c8_rev_old_threading envSuccess PyValue.noneVal _ rfl rfl).1 rfl

end WptUpdate
